import Mathlib

/-!
Shallow embedding of the linkedin-mcp-server core: the OAuth authentication
subsystem (auth.ts) and the resilient LinkedIn API client (linkedin.ts).

HTTP transport is modelled by an explicit outcome per endpoint: either a
response (status, headers, parsed JSON body, raw text) or a thrown transport
error. Each operation is translated from the source as a pure function of the
outcomes of the endpoints it may contact; alongside its result it returns the
list of endpoints it actually contacted, in order.
-/

namespace LinkedinMcp

/-- The JSON fields the client ever reads from a response body. A field absent
from the JSON document is `none`. -/
structure Body where
  sub : Option String := none
  id : Option String := none
  name : Option String := none
  email : Option String := none
  givenName : Option String := none
  familyName : Option String := none
  localizedFirstName : Option String := none
  localizedLastName : Option String := none
  elements : Option (List String) := none
  pagingTotal : Option Nat := none
  text : String := ""
deriving Repr, DecidableEq

structure HttpResponse where
  status : Nat
  headers : List (String × String) := []
  body : Body := {}
deriving Repr, DecidableEq

/-- fetch Response.ok: status in the inclusive range 200..299. -/
def HttpResponse.ok (r : HttpResponse) : Bool :=
  200 ≤ r.status && r.status ≤ 299

/-- Headers.get: the value of a header, or null when absent. -/
def getHeader (r : HttpResponse) (name : String) : Option String :=
  (r.headers.find? (fun p => p.1 == name)).map (fun p => p.2)

/-- The outcome of one fetch call: a completed response, or a thrown
transport error carrying a message. -/
inductive FetchOutcome
  | ok (r : HttpResponse)
  | exn (e : String)
deriving Repr, DecidableEq

/-- JS truthiness of an optional string: an absent value and the empty string
are falsy. -/
def truthy : Option String → Bool
  | none => false
  | some s => s ≠ ""

/-- JS `a || b` on optional strings. -/
def jsOr (a b : Option String) : Option String :=
  if truthy a then a else b

/-! ## TokenStore (auth.ts) -/

/-- The persisted token record (interface TokenData). -/
structure TokenData where
  access_token : String
  expires_in : Nat
  expires_at : Nat
  scope : Option String := none
  token_type : Option String := none
  id_token : Option String := none
  sub : Option String := none
  name : Option String := none
  email : Option String := none
deriving Repr, DecidableEq

/-- isAuthenticated(): `stored` is the result of loadToken(), `now` is
Date.now(). The source guards the expiry check with the JS truthiness of
`token.expires_at`, so a record whose expires_at is 0 (falsy) skips the
check entirely. -/
def isAuthenticated (stored : Option TokenData) (now : Nat) : Bool :=
  match stored with
  | none => false
  | some token => if token.expires_at ≠ 0 ∧ now ≥ token.expires_at then false else true

/-- The JSON document returned by the token endpoint. -/
structure TokenJson where
  access_token : String
  expires_in : Nat
  scope : Option String := none
  token_type : Option String := none
  id_token : Option String := none
deriving Repr, DecidableEq

/-- The token endpoint's response: status, raw text, parsed JSON. -/
structure TokenEndpointResponse where
  status : Nat
  text : String := ""
  json : TokenJson
deriving Repr, DecidableEq

def statusOk (status : Nat) : Bool :=
  200 ≤ status && status ≤ 299

/-- exchangeCodeForToken: on a non-2xx response, throw with the response text;
otherwise spread the provider JSON and set expires_at := Date.now() +
expires_in * 1000, where `now` is the Date.now() sample taken at exchange
time. -/
def exchangeCodeForToken (now : Nat) (resp : TokenEndpointResponse) :
    Except String TokenData :=
  if !statusOk resp.status then
    .error ("Token exchange failed: " ++ resp.text)
  else
    .ok { access_token := resp.json.access_token
          expires_in := resp.json.expires_in
          expires_at := now + resp.json.expires_in * 1000
          scope := resp.json.scope
          token_type := resp.json.token_type
          id_token := resp.json.id_token }

/-- The identity triple produced by fetchUserInfo. -/
structure UserInfo where
  sub : Option String := none
  name : Option String := none
  email : Option String := none
deriving Repr, DecidableEq

/-- authenticateInteractive, after the exchange, assigns tokenData.sub/name/
email from the fetched user info before saving; nothing else on the record is
touched. -/
def attachUserInfo (t : TokenData) (u : UserInfo) : TokenData :=
  { t with sub := u.sub, name := u.name, email := u.email }

/-! ## AuthorizationFlow: authorization URL (auth.ts) -/

structure Credentials where
  client_id : String
  client_secret : String
  redirect_uri : Option String := none
deriving Repr, DecidableEq

def SCOPES : List String := ["openid", "profile", "email", "w_member_social"]

def defaultRedirectUri : String := "http://127.0.0.1:3000/callback"

/-- redirectUri = credentials.redirect_uri || "http://127.0.0.1:3000/callback"
(JS truthiness: absent or empty falls back to the default). -/
def redirectUriOf (c : Credentials) : String :=
  match c.redirect_uri with
  | some s => if s = "" then defaultRedirectUri else s
  | none => defaultRedirectUri

/-- The URLSearchParams passed to the authorization URL, in construction
order. `state` is the value of Math.random().toString(36).substring(7),
taken here as an abstract input. -/
def buildAuthParams (c : Credentials) (redirectUri state : String) :
    List (String × String) :=
  [ ("response_type", "code"),
    ("client_id", c.client_id),
    ("redirect_uri", redirectUri),
    ("scope", String.intercalate " " SCOPES),
    ("state", state) ]

/-! ## Claims C5, C6, C7 -/

/-- C5 counterexample token record: expires_at = 0 is falsy in JS, so the
expiry check is skipped. -/
def c5Token : TokenData :=
  { access_token := "tok", expires_in := 0, expires_at := 0 }

/-- C5: the claim states isAuthenticated is true iff now < expires_at. At the
record with expires_at = 0 and now = 5, the code returns true although
5 < 0 fails, refuting the claim as stated. -/
theorem c5_counterexample :
    isAuthenticated (some c5Token) 5 = true ∧ ¬ (5 < c5Token.expires_at) := by
  constructor
  · rfl
  · decide

/-- C5 (amended): isAuthenticated returns false when no record is present,
and for a present record returns true iff its expires_at is zero (a falsy
value, which skips the expiry check) or now is strictly before expires_at. In
particular, for records with a nonzero expires_at the result is exactly
now < expires_at. -/
theorem c5_isAuthenticated_characterization (stored : Option TokenData) (now : Nat) :
    isAuthenticated stored now = true ↔
      ∃ t, stored = some t ∧ (t.expires_at = 0 ∨ now < t.expires_at) := by
  cases stored with
  | none => simp [isAuthenticated]
  | some t =>
    simp only [isAuthenticated]
    constructor
    · intro h
      refine ⟨t, rfl, ?_⟩
      by_cases h0 : t.expires_at = 0
      · exact Or.inl h0
      · refine Or.inr ?_
        by_contra hnlt
        rw [if_pos ⟨h0, Nat.le_of_not_lt hnlt⟩] at h
        simp at h
    · rintro ⟨t2, ht2, hor⟩
      injection ht2 with he
      subst he
      rcases hor with h0 | hlt
      · rw [if_neg (by simp [h0])]
      · rw [if_neg (by rintro ⟨-, hge⟩; exact absurd hlt (Nat.not_lt.mpr hge))]

/-- C6: a successful exchange produces a record with
expires_at = now + expires_in * 1000 (milliseconds, `now` being the
Date.now() sample at exchange time), and the only later mutation of the
record before persistence (attaching the fetched identity) leaves expires_at
unchanged. -/
theorem c6_expires_at_invariant (now : Nat) (resp : TokenEndpointResponse)
    (u : UserInfo) (h : statusOk resp.status = true) :
    ∃ t, exchangeCodeForToken now resp = Except.ok t ∧
      t.expires_at = now + resp.json.expires_in * 1000 ∧
      (attachUserInfo t u).expires_at = now + resp.json.expires_in * 1000 := by
  refine ⟨{ access_token := resp.json.access_token
            expires_in := resp.json.expires_in
            expires_at := now + resp.json.expires_in * 1000
            scope := resp.json.scope
            token_type := resp.json.token_type
            id_token := resp.json.id_token }, ?_, rfl, rfl⟩
  simp [exchangeCodeForToken, h]

def c6Resp : TokenEndpointResponse :=
  { status := 200, json := { access_token := "tok", expires_in := 3600 } }

/-- C6 witness: concrete evaluation at a 200 exchange response with
expires_in = 3600 and now = 1000. -/
theorem c6_witness :
    statusOk c6Resp.status = true ∧
    ∃ t, exchangeCodeForToken 1000 c6Resp = Except.ok t ∧
      t.expires_at = 1000 + c6Resp.json.expires_in * 1000 ∧
      (attachUserInfo t {}).expires_at = 1000 + c6Resp.json.expires_in * 1000 :=
  ⟨by decide, c6_expires_at_invariant 1000 c6Resp {} (by decide)⟩

/-- C7: for every credentials record, redirect uri and state value, the
authorization URL query carries exactly response_type=code, client_id,
redirect_uri, scope equal to the space-joined string
"openid profile email w_member_social", and the generated state token, and
nothing else. -/
theorem c7_auth_url_params (c : Credentials) (state : String) :
    buildAuthParams c (redirectUriOf c) state =
      [ ("response_type", "code"),
        ("client_id", c.client_id),
        ("redirect_uri", redirectUriOf c),
        ("scope", "openid profile email w_member_social"),
        ("state", state) ] := by
  simp [buildAuthParams, SCOPES]
  decide

/-! ## CallbackListener (auth.ts, authenticateInteractive) -/

/-- The query parameters of one request to the local callback server, as
returned by url.searchParams.get (null when absent). -/
structure CallbackQuery where
  code : Option String := none
  error : Option String := none
  error_description : Option String := none
deriving Repr, DecidableEq

/-- The settlement state of the promise awaited by authenticateInteractive. -/
inductive FlowState
  | pending
  | resolved (code : String)
  | rejected (msg : String)
deriving Repr, DecidableEq

/-- The observable state of one callback-handling episode: the promise, the
http.Server (serverClosed records whether server.close() was called), and the
HTTP responses written so far as (status, html) pairs. -/
structure ListenerState where
  flow : FlowState := .pending
  serverClosed : Bool := false
  responses : List (Nat × String) := []
deriving Repr, DecidableEq

/-- Promise resolve: settles only a pending promise. -/
def settleResolve (c : String) (s : ListenerState) : ListenerState :=
  match s.flow with
  | .pending => { s with flow := .resolved c }
  | _ => s

/-- Promise reject: settles only a pending promise. -/
def settleReject (m : String) (s : ListenerState) : ListenerState :=
  match s.flow with
  | .pending => { s with flow := .rejected m }
  | _ => s

/-- res.writeHead + res.end. -/
def sendResponse (status : Nat) (html : String) (s : ListenerState) : ListenerState :=
  { s with responses := s.responses ++ [(status, html)] }

/-- JS template-literal rendering of a possibly-null string. -/
def jsShow : Option String → String
  | some s => s
  | none => "null"

/-- The http.createServer request handler, translated from
authenticateInteractive. On a matching path: a truthy `error` parameter sends
a 400 page and rejects, WITHOUT closing the server; a truthy `code` sends a
200 page, closes the server and resolves; neither sends a 400 page and
rejects, again without closing the server. On a non-matching path the handler
does nothing at all. -/
def handleCallback (callbackPath reqPath : String) (q : CallbackQuery)
    (s : ListenerState) : ListenerState :=
  if reqPath = callbackPath then
    if truthy q.error then
      let e := q.error.getD ""
      let s1 := sendResponse 400
        ("<html><body><h1>Error</h1><p>" ++ e ++ ": " ++ jsShow q.error_description
          ++ "</p></body></html>") s
      settleReject ("OAuth error: " ++ e) s1
    else if truthy q.code then
      let c := q.code.getD ""
      let s1 := sendResponse 200
        ("<html><body><h1>Authentication successful!</h1><p>You can close this window and return to the terminal.</p></body></html>") s
      let s2 := { s1 with serverClosed := true }
      settleResolve c s2
    else
      let s1 := sendResponse 400
        ("<html><body><h1>Error</h1><p>No authorization code received.</p></body></html>") s
      settleReject "No authorization code received" s1
  else s

/-! ## Claims C2, C10 -/

def c2Query : CallbackQuery :=
  { error := some "access_denied", error_description := some "user denied" }

/-- C2: at the failing input (a matching-path callback carrying
error=access_denied), the flow does fail with the denial rejection, but
server.close() is never reached on this path — the listener stays bound, so
the port is NOT released, contradicting the claim. Only the success (code)
path closes the server. -/
theorem c2_denial_leaves_listener_open :
    (handleCallback "/callback" "/callback" c2Query {}).flow =
        FlowState.rejected "OAuth error: access_denied" ∧
    (handleCallback "/callback" "/callback" c2Query {}).serverClosed = false ∧
    (handleCallback "/callback" "/callback" { code := some "c0de" } {}).serverClosed = true := by
  refine ⟨by decide, by decide, by decide⟩

/-- C10: a request whose path differs from the derived callback path leaves
the listener state entirely unchanged: no HTTP response is written, the
promise is neither resolved nor rejected, and the server is not closed. -/
theorem c10_nonmatching_path_is_noop (callbackPath reqPath : String)
    (q : CallbackQuery) (s : ListenerState) (h : reqPath ≠ callbackPath) :
    handleCallback callbackPath reqPath q s = s := by
  unfold handleCallback
  simp [h]

/-- C10 witness: a request for /favicon.ico with a code parameter present
does not settle a pending flow on listener path /callback. -/
theorem c10_witness :
    ("/favicon.ico" : String) ≠ "/callback" ∧
    handleCallback "/callback" "/favicon.ico" { code := some "abc" } {} = {} :=
  ⟨by decide,
   c10_nonmatching_path_is_noop "/callback" "/favicon.ico" { code := some "abc" } {} (by decide)⟩

/-! ## ApiClient (linkedin.ts, class LinkedInClient)

Each operation returns its result together with the ordered list of endpoints
it contacted. The member-URN cache (this.memberUrn) is passed in explicitly
as `cached`; the write-back of a freshly resolved URN is the Except.ok value
of getMemberUrn. -/

inductive Endpoint
  | restMe
  | userinfo
  | v2Me
  | restPosts
  | ugcPosts
  | restPostsDelete
  | ugcPostsDelete
  | ugcPostsQuery
  | connections
deriving Repr, DecidableEq

/-- The outcomes of the three identity endpoints, in chain order
/rest/me, /v2/userinfo, /v2/me. -/
structure IdEnv where
  restMe : FetchOutcome
  userinfo : FetchOutcome
  v2Me : FetchOutcome
deriving Repr, DecidableEq

/-- The message of the error thrown when every identity candidate fails. -/
def urnErrorMsg : String :=
  "Unable to determine member URN. Please ensure you have \x27Sign In with LinkedIn using OpenID Connect\x27 product enabled in your LinkedIn app."

/-- One wrapped identity candidate (a try/catch block of getMemberUrn): it
yields a URN exactly when the fetch completed, response.ok holds and the
identifier field of the body is truthy; a caught transport error, a non-2xx
status or a falsy identifier all fall through to the next candidate. -/
def idCandidateHit (o : FetchOutcome) (field : Body → Option String) : Option String :=
  match o with
  | .exn _ => none
  | .ok r =>
    if r.ok && truthy (field r.body) then
      some ("urn:li:person:" ++ (field r.body).getD "")
    else none

/-- getMemberUrn: cached URN short-circuits; otherwise /rest/me (field sub),
then /v2/userinfo (field sub), then /v2/me (field id), each candidate wrapped
in try/catch; when all three fall through, throw. -/
def getMemberUrn (cached : Option String) (env : IdEnv) :
    Except String String × List Endpoint :=
  match cached with
  | some urn => (.ok urn, [])
  | none =>
    match idCandidateHit env.restMe (fun b => b.sub) with
    | some urn => (.ok urn, [.restMe])
    | none =>
      match idCandidateHit env.userinfo (fun b => b.sub) with
      | some urn => (.ok urn, [.restMe, .userinfo])
      | none =>
        match idCandidateHit env.v2Me (fun b => b.id) with
        | some urn => (.ok urn, [.restMe, .userinfo, .v2Me])
        | none => (.error urnErrorMsg, [.restMe, .userinfo, .v2Me])

/-- interface Profile, restricted to the fields the mappers populate. -/
structure Profile where
  sub : Option String := none
  name : Option String := none
  given_name : Option String := none
  family_name : Option String := none
  email : Option String := none
deriving Repr, DecidableEq

/-- getProfile candidate 1 mapper: `return await response.json()` — the
OpenID userinfo document itself. -/
def profileOfUserinfo (b : Body) : Profile :=
  { sub := b.sub, name := b.name, given_name := b.givenName,
    family_name := b.familyName, email := b.email }

/-- getProfile candidate 2 mapper:
`{ sub: data.sub || data.id, name: data.name || data.localizedFirstName }`. -/
def profileOfRestMe (b : Body) : Profile :=
  { sub := jsOr b.sub b.id, name := jsOr b.name b.localizedFirstName }

/-- getProfile candidate 3 (the final, UNWRAPPED fetch of /v2/me): a
transport error propagates; a 2xx maps localized names with
`${x || ""}` rendering and trim; a non-2xx throws "Failed to fetch
profile". -/
def getProfileV2Me (o : FetchOutcome) : Except String Profile :=
  match o with
  | .exn e => .error e
  | .ok r =>
    if r.ok then
      .ok { sub := r.body.id
            given_name := r.body.localizedFirstName
            family_name := r.body.localizedLastName
            name := some (((r.body.localizedFirstName.getD "") ++ " "
              ++ (r.body.localizedLastName.getD "")).trim) }
    else .error "Failed to fetch profile"

/-- The outcomes of the three profile endpoints, in chain order
/v2/userinfo, /rest/me, /v2/me. -/
structure ProfileEnv where
  userinfo : FetchOutcome
  restMe : FetchOutcome
  v2Me : FetchOutcome
deriving Repr, DecidableEq

/-- getProfile: /v2/userinfo and /rest/me each wrapped in try/catch and
succeeding on any 2xx; the final /v2/me fetch is outside any try/catch. -/
def getProfile (env : ProfileEnv) : Except String Profile × List Endpoint :=
  match env.userinfo with
  | .ok r =>
    if r.ok then (.ok (profileOfUserinfo r.body), [.userinfo])
    else
      match env.restMe with
      | .ok r2 =>
        if r2.ok then (.ok (profileOfRestMe r2.body), [.userinfo, .restMe])
        else (getProfileV2Me env.v2Me, [.userinfo, .restMe, .v2Me])
      | .exn _ => (getProfileV2Me env.v2Me, [.userinfo, .restMe, .v2Me])
  | .exn _ =>
    match env.restMe with
    | .ok r2 =>
      if r2.ok then (.ok (profileOfRestMe r2.body), [.userinfo, .restMe])
      else (getProfileV2Me env.v2Me, [.userinfo, .restMe, .v2Me])
    | .exn _ => (getProfileV2Me env.v2Me, [.userinfo, .restMe, .v2Me])

inductive Visibility
  | PUBLIC
  | CONNECTIONS
  | LOGGED_IN
deriving Repr, DecidableEq

/-- interface PostResult. -/
structure PostResult where
  success : Bool
  id : Option String := none
  message : Option String := none
deriving Repr, DecidableEq

/-- `response.ok || response.status === 201` (the success test of the post
chains). -/
def postOkStatus (r : HttpResponse) : Bool :=
  r.ok || r.status == 201

/-- `response.headers.get("x-restli-id") || "created"`. -/
def restliIdOr (r : HttpResponse) : String :=
  match getHeader r "x-restli-id" with
  | some s => if s = "" then "created" else s
  | none => "created"

/-- The outcomes seen by createPost / createArticlePost: the identity chain
(for getMemberUrn) plus /rest/posts and /v2/ugcPosts. -/
structure PostEnv where
  idEnv : IdEnv
  restPosts : FetchOutcome
  ugcPosts : FetchOutcome
deriving Repr, DecidableEq

/-- createPost: resolve the member URN (its error propagates), then POST
/rest/posts — this fetch is NOT wrapped, so a transport error propagates;
2xx/201 succeeds with the x-restli-id header (or "created"); otherwise POST
/v2/ugcPosts, equally unwrapped, succeeding with the body id; otherwise throw
with the last status and response text. The text and visibility arguments
shape only the request payloads, which the environment abstracts. -/
def createPost (text : String) (visibility : Visibility) (cached : Option String)
    (env : PostEnv) : Except String PostResult × List Endpoint :=
  match getMemberUrn cached env.idEnv with
  | (.error e, log) => (.error e, log)
  | (.ok _, log) =>
    match env.restPosts with
    | .exn e => (.error e, log ++ [.restPosts])
    | .ok r =>
      if postOkStatus r then
        (.ok { success := true, id := some (restliIdOr r) }, log ++ [.restPosts])
      else
        match env.ugcPosts with
        | .exn e => (.error e, log ++ [.restPosts, .ugcPosts])
        | .ok r2 =>
          if postOkStatus r2 then
            (.ok { success := true, id := r2.body.id }, log ++ [.restPosts, .ugcPosts])
          else
            (.error ("Failed to create post: " ++ toString r2.status ++ " - " ++ r2.body.text),
             log ++ [.restPosts, .ugcPosts])

/-- createArticlePost: identical control flow to createPost (different
payloads, which the environment abstracts, and a different error message). -/
def createArticlePost (text articleUrl : String) (title description : Option String)
    (visibility : Visibility) (cached : Option String) (env : PostEnv) :
    Except String PostResult × List Endpoint :=
  match getMemberUrn cached env.idEnv with
  | (.error e, log) => (.error e, log)
  | (.ok _, log) =>
    match env.restPosts with
    | .exn e => (.error e, log ++ [.restPosts])
    | .ok r =>
      if postOkStatus r then
        (.ok { success := true, id := some (restliIdOr r) }, log ++ [.restPosts])
      else
        match env.ugcPosts with
        | .exn e => (.error e, log ++ [.restPosts, .ugcPosts])
        | .ok r2 =>
          if postOkStatus r2 then
            (.ok { success := true, id := r2.body.id }, log ++ [.restPosts, .ugcPosts])
          else
            (.error ("Failed to create article post: " ++ toString r2.status ++ " - " ++ r2.body.text),
             log ++ [.restPosts, .ugcPosts])

/-- The result type of deletePost. -/
structure DeleteResult where
  success : Bool
  message : Option String := none
deriving Repr, DecidableEq

/-- `response.ok || response.status === 204` (the success test of the delete
chain). -/
def deleteOkStatus (r : HttpResponse) : Bool :=
  r.ok || r.status == 204

/-- The outcomes of the two delete endpoints. -/
structure DeleteEnv where
  restDelete : FetchOutcome
  ugcDelete : FetchOutcome
deriving Repr, DecidableEq

/-- deletePost: DELETE /rest/posts/{id}, then DELETE /v2/ugcPosts/{id}; both
fetches unwrapped. When both candidates fail, the operation RETURNS
success:false with a message carrying only the last status — it does not
throw and does not include the response body. -/
def deletePost (postId : String) (env : DeleteEnv) :
    Except String DeleteResult × List Endpoint :=
  match env.restDelete with
  | .exn e => (.error e, [.restPostsDelete])
  | .ok r =>
    if deleteOkStatus r then (.ok { success := true }, [.restPostsDelete])
    else
      match env.ugcDelete with
      | .exn e => (.error e, [.restPostsDelete, .ugcPostsDelete])
      | .ok r2 =>
        if deleteOkStatus r2 then
          (.ok { success := true }, [.restPostsDelete, .ugcPostsDelete])
        else
          (.ok { success := false,
                 message := some ("Failed to delete post: " ++ toString r2.status) },
           [.restPostsDelete, .ugcPostsDelete])

/-- The result type of getPosts. -/
structure PostsResult where
  posts : List String
  message : Option String := none
deriving Repr, DecidableEq

/-- getPosts: resolve the member URN (its error propagates), then a single
unwrapped GET of the ugcPosts author query; 2xx yields `data.elements || []`;
a non-2xx yields the soft result with the permissions message. -/
def getPosts (count : Nat) (cached : Option String) (idEnv : IdEnv)
    (query : FetchOutcome) : Except String PostsResult × List Endpoint :=
  match getMemberUrn cached idEnv with
  | (.error e, log) => (.error e, log)
  | (.ok _, log) =>
    match query with
    | .exn e => (.error e, log ++ [.ugcPostsQuery])
    | .ok r =>
      if r.ok then
        (.ok { posts := r.body.elements.getD [] }, log ++ [.ugcPostsQuery])
      else
        (.ok { posts := [],
               message := some "Unable to fetch posts. This may require additional LinkedIn API permissions." },
         log ++ [.ugcPostsQuery])

/-- The count field of getConnectionsCount: a number, or the string
"unavailable". -/
inductive CountVal
  | num (n : Nat)
  | unavailable
deriving Repr, DecidableEq

structure CountResult where
  count : CountVal
  message : Option String := none
deriving Repr, DecidableEq

/-- getConnectionsCount: a single unwrapped GET of the viewer connections
query; 2xx yields `data.paging?.total || 0`; a non-2xx yields the soft result
with the permissions message. -/
def getConnectionsCount (query : FetchOutcome) :
    Except String CountResult × List Endpoint :=
  match query with
  | .exn e => (.error e, [.connections])
  | .ok r =>
    if r.ok then
      (.ok { count := .num (r.body.pagingTotal.getD 0) }, [.connections])
    else
      (.ok { count := .unavailable,
             message := some "Connection count may require additional permissions." },
       [.connections])

/-! ## Failure predicates over fetch outcomes -/

/-- Failure of a try/catch-wrapped candidate in the coarse sense of the spec:
a caught transport error, or a completed non-2xx response. -/
def outcomeFails (o : FetchOutcome) : Bool :=
  match o with
  | .exn _ => true
  | .ok r => !r.ok

/-- A completed non-2xx response (no transport error). -/
def respNonOk (o : FetchOutcome) : Bool :=
  match o with
  | .exn _ => false
  | .ok r => !r.ok

/-- A completed 2xx response. -/
def outcome2xx (o : FetchOutcome) : Bool :=
  match o with
  | .exn _ => false
  | .ok r => r.ok

/-- Refined failure of one wrapped identity candidate: caught transport
error, non-2xx status, or a 2xx response whose identifier field is falsy. -/
def idCandFails (o : FetchOutcome) (field : Body → Option String) : Bool :=
  match o with
  | .exn _ => true
  | .ok r => !(r.ok && truthy (field r.body))

/-- The response of a completed outcome (unused default for a transport
error). -/
def responseOf : FetchOutcome → HttpResponse
  | .ok r => r
  | .exn _ => { status := 0 }

/-- The canonical mapping of a successful identity candidate. -/
def idMap (o : FetchOutcome) (field : Body → Option String) : String :=
  "urn:li:person:" ++ (field (responseOf o).body).getD ""

lemma idCandidateHit_of_fails {o : FetchOutcome} {f : Body → Option String}
    (h : idCandFails o f = true) : idCandidateHit o f = none := by
  cases o with
  | exn e => rfl
  | ok r =>
    simp only [idCandFails] at h
    have hb : (r.ok && truthy (f r.body)) = false := by
      cases hcase : (r.ok && truthy (f r.body)) with
      | false => rfl
      | true => rw [hcase] at h; exact absurd h (by decide)
    simp [idCandidateHit, hb]

lemma idCandidateHit_of_succ {o : FetchOutcome} {f : Body → Option String}
    (h : idCandFails o f = false) : idCandidateHit o f = some (idMap o f) := by
  cases o with
  | exn e => simp [idCandFails] at h
  | ok r =>
    simp only [idCandFails] at h
    have hb : (r.ok && truthy (f r.body)) = true := by
      cases hcase : (r.ok && truthy (f r.body)) with
      | true => rfl
      | false => rw [hcase] at h; exact absurd h (by decide)
    simp [idCandidateHit, hb, idMap, responseOf]

/-! ## Claim C1 -/

def allFail500 : FetchOutcome := .ok { status := 500 }

def c1ProfileEnv : ProfileEnv :=
  { userinfo := allFail500, restMe := allFail500, v2Me := allFail500 }

/-- C1 counterexample: with every candidate of the profile chain failing
(HTTP 500 on all three endpoints), getProfile raises
Error("Failed to fetch profile") — it does not return a soft-failure
result, refuting the claim for the read-only profile operation. -/
theorem c1_counterexample :
    (getProfile c1ProfileEnv).1 = Except.error "Failed to fetch profile" := by
  rfl

lemma getProfileV2Me_nonOk {o : FetchOutcome} (h : respNonOk o = true) :
    getProfileV2Me o = Except.error "Failed to fetch profile" := by
  cases o with
  | exn e => simp [respNonOk] at h
  | ok r =>
    have hr : r.ok = false := by simpa [respNonOk] using h
    simp [getProfileV2Me, hr]

lemma getProfile_exhaust (env : ProfileEnv)
    (h1 : outcomeFails env.userinfo = true)
    (h2 : outcomeFails env.restMe = true)
    (h3 : respNonOk env.v2Me = true) :
    getProfile env =
      (Except.error "Failed to fetch profile", [.userinfo, .restMe, .v2Me]) := by
  unfold getProfile
  cases hu : env.userinfo with
  | exn e =>
    cases hr : env.restMe with
    | exn e2 => rw [getProfileV2Me_nonOk h3]
    | ok r2 =>
      have : r2.ok = false := by rw [hr] at h2; simpa [outcomeFails] using h2
      simp [this, getProfileV2Me_nonOk h3]
  | ok r =>
    have hro : r.ok = false := by rw [hu] at h1; simpa [outcomeFails] using h1
    cases hr : env.restMe with
    | exn e2 => simp [hro, getProfileV2Me_nonOk h3]
    | ok r2 =>
      have : r2.ok = false := by rw [hr] at h2; simpa [outcomeFails] using h2
      simp [hro, this, getProfileV2Me_nonOk h3]

lemma getMemberUrn_exhaust (env : IdEnv)
    (h1 : idCandFails env.restMe (fun b => b.sub) = true)
    (h2 : idCandFails env.userinfo (fun b => b.sub) = true)
    (h3 : idCandFails env.v2Me (fun b => b.id) = true) :
    getMemberUrn none env =
      (Except.error urnErrorMsg, [.restMe, .userinfo, .v2Me]) := by
  unfold getMemberUrn
  rw [idCandidateHit_of_fails h1, idCandidateHit_of_fails h2,
    idCandidateHit_of_fails h3]

/-- C1 (amended): when every candidate fails, the two single-candidate
read-only operations — list posts and connection count — return structured
soft-failure results carrying an explanatory message without raising, but
profile fetch and identity resolution RAISE an error carrying an explanatory
message instead of returning a soft result. (For the unwrapped final fetches,
failure here means a completed non-2xx response; an uncaught transport error
would propagate as-is.) -/
theorem c1_read_only_exhaustion (penv : ProfileEnv) (ienv : IdEnv)
    (urn : String) (q1 q2 : FetchOutcome) (count : Nat)
    (hp1 : outcomeFails penv.userinfo = true)
    (hp2 : outcomeFails penv.restMe = true)
    (hp3 : respNonOk penv.v2Me = true)
    (hi1 : idCandFails ienv.restMe (fun b => b.sub) = true)
    (hi2 : idCandFails ienv.userinfo (fun b => b.sub) = true)
    (hi3 : idCandFails ienv.v2Me (fun b => b.id) = true)
    (hq : respNonOk q1 = true)
    (hc : respNonOk q2 = true) :
    (getProfile penv).1 = Except.error "Failed to fetch profile" ∧
    (getMemberUrn none ienv).1 = Except.error urnErrorMsg ∧
    (getPosts count (some urn) ienv q1).1 =
      Except.ok { posts := ([] : List String),
                  message := some "Unable to fetch posts. This may require additional LinkedIn API permissions." } ∧
    (getConnectionsCount q2).1 =
      Except.ok { count := CountVal.unavailable,
                  message := some "Connection count may require additional permissions." } := by
  refine ⟨?_, ?_, ?_, ?_⟩
  · rw [getProfile_exhaust penv hp1 hp2 hp3]
  · rw [getMemberUrn_exhaust ienv hi1 hi2 hi3]
  · cases q1 with
    | exn e => simp [respNonOk] at hq
    | ok r =>
      have hr : r.ok = false := by simpa [respNonOk] using hq
      simp [getPosts, getMemberUrn, hr]
  · cases q2 with
    | exn e => simp [respNonOk] at hc
    | ok r =>
      have hr : r.ok = false := by simpa [respNonOk] using hc
      simp [getConnectionsCount, hr]

def ienvFail : IdEnv :=
  { restMe := allFail500, userinfo := allFail500, v2Me := allFail500 }

/-- C1 witness: every endpoint answering HTTP 500. -/
theorem c1_witness :
    respNonOk allFail500 = true ∧
    ((getProfile c1ProfileEnv).1 = Except.error "Failed to fetch profile" ∧
     (getMemberUrn none ienvFail).1 = Except.error urnErrorMsg ∧
     (getPosts 10 (some "urn:li:person:u") ienvFail allFail500).1 =
       Except.ok { posts := ([] : List String),
                   message := some "Unable to fetch posts. This may require additional LinkedIn API permissions." } ∧
     (getConnectionsCount allFail500).1 =
       Except.ok { count := CountVal.unavailable,
                   message := some "Connection count may require additional permissions." }) :=
  ⟨by decide,
   c1_read_only_exhaustion c1ProfileEnv ienvFail "urn:li:person:u" allFail500 allFail500 10
     (by decide) (by decide) (by decide) (by decide) (by decide) (by decide)
     (by decide) (by decide)⟩

/-! ## Claim C3 -/

def c3resp404 : HttpResponse := { status := 404, body := { text := "not found" } }

/-- C3 counterexample: deletePost, a mutating operation, does NOT raise when
its whole chain fails — it returns success:false with a message carrying only
the last status and no response body, refuting the claim for delete post. -/
theorem c3_counterexample :
    (deletePost "post123" { restDelete := .ok c3resp404, ugcDelete := .ok c3resp404 }).1 =
      Except.ok { success := false, message := some "Failed to delete post: 404" } := by
  rfl

/-- C3 (amended): when every candidate completes with a failing status,
create post and create article post raise an error carrying the last
candidate's status code and response body, while delete post returns a
soft result carrying only the last candidate's status code (no body) and
does not raise. -/
theorem c3_mutating_exhaustion (urn text articleUrl : String)
    (title description : Option String) (v : Visibility) (ienv : IdEnv)
    (r1 r2 a1 a2 d1 d2 : HttpResponse)
    (h1 : postOkStatus r1 = false) (h2 : postOkStatus r2 = false)
    (h3 : postOkStatus a1 = false) (h4 : postOkStatus a2 = false)
    (h5 : deleteOkStatus d1 = false) (h6 : deleteOkStatus d2 = false) :
    (createPost text v (some urn)
        { idEnv := ienv, restPosts := .ok r1, ugcPosts := .ok r2 }).1 =
      Except.error ("Failed to create post: " ++ toString r2.status ++ " - " ++ r2.body.text) ∧
    (createArticlePost text articleUrl title description v (some urn)
        { idEnv := ienv, restPosts := .ok a1, ugcPosts := .ok a2 }).1 =
      Except.error ("Failed to create article post: " ++ toString a2.status ++ " - " ++ a2.body.text) ∧
    (deletePost "post123" { restDelete := .ok d1, ugcDelete := .ok d2 }).1 =
      Except.ok { success := false,
                  message := some ("Failed to delete post: " ++ toString d2.status) } := by
  refine ⟨?_, ?_, ?_⟩
  · simp [createPost, getMemberUrn, h1, h2]
  · simp [createArticlePost, getMemberUrn, h3, h4]
  · simp [deletePost, h5, h6]

/-- C3 witness: both candidates of each chain answering HTTP 404. -/
theorem c3_witness :
    postOkStatus c3resp404 = false ∧
    ((createPost "hi" .PUBLIC (some "urn:li:person:u")
        { idEnv := ienvFail, restPosts := .ok c3resp404, ugcPosts := .ok c3resp404 }).1 =
      Except.error ("Failed to create post: " ++ toString c3resp404.status ++ " - " ++ c3resp404.body.text) ∧
    (createArticlePost "hi" "https://a.com" none none .PUBLIC (some "urn:li:person:u")
        { idEnv := ienvFail, restPosts := .ok c3resp404, ugcPosts := .ok c3resp404 }).1 =
      Except.error ("Failed to create article post: " ++ toString c3resp404.status ++ " - " ++ c3resp404.body.text) ∧
    (deletePost "post123" { restDelete := .ok c3resp404, ugcDelete := .ok c3resp404 }).1 =
      Except.ok { success := false,
                  message := some ("Failed to delete post: " ++ toString c3resp404.status) }) :=
  ⟨by decide,
   c3_mutating_exhaustion "urn:li:person:u" "hi" "https://a.com" none none .PUBLIC
     ienvFail c3resp404 c3resp404 c3resp404 c3resp404 c3resp404 c3resp404
     (by decide) (by decide) (by decide) (by decide) (by decide) (by decide)⟩

/-! ## Claim C4 -/

/-- The identity chain as an indexed candidate list (endpoint outcomes in
chain order). -/
def idOutcomeN (env : IdEnv) : Nat → FetchOutcome
  | 0 => env.restMe
  | 1 => env.userinfo
  | _ => env.v2Me

/-- The identifier field read by each identity candidate. -/
def idFieldN : Nat → Body → Option String
  | 0 => fun b => b.sub
  | 1 => fun b => b.sub
  | _ => fun b => b.id

def idEndpoints : List Endpoint := [.restMe, .userinfo, .v2Me]

/-- The create-post chain as an indexed candidate list. -/
def postOutcomeN (env : PostEnv) : Nat → FetchOutcome
  | 0 => env.restPosts
  | _ => env.ugcPosts

/-- A create-post candidate that falls through to the next one: a completed
non-success response. A transport error does NOT fall through (the fetch is
unwrapped, so it aborts the operation). -/
def postCandFallsThrough (o : FetchOutcome) : Bool :=
  match o with
  | .ok r => !postOkStatus r
  | .exn _ => false

/-- A create-post candidate that succeeds: a completed success response. -/
def postCandSucceeds (o : FetchOutcome) : Bool :=
  match o with
  | .ok r => postOkStatus r
  | .exn _ => false

def postEndpoints : List Endpoint := [.restPosts, .ugcPosts]

/-- The canonical mapping of each create-post candidate. -/
def postMapN : Nat → HttpResponse → PostResult
  | 0 => fun r => { success := true, id := some (restliIdOr r) }
  | _ => fun r => { success := true, id := r.body.id }

def c4Env : IdEnv :=
  { restMe := .ok { status := 200 },
    userinfo := .ok { status := 200, body := { sub := some "x" } },
    v2Me := .ok { status := 200 } }

/-- C4 counterexample: the first identity candidate completes with a 2xx
status (so per the claim, with K = 0, no request may reach any later
candidate), yet because its body lacks `sub` the code falls through and
issues a request to the second candidate, whose mapping becomes the
result. -/
theorem c4_counterexample :
    outcome2xx c4Env.restMe = true ∧
    (getMemberUrn none c4Env).2 = [Endpoint.restMe, Endpoint.userinfo] ∧
    (getMemberUrn none c4Env).1 = Except.ok "urn:li:person:x" := by
  refine ⟨by decide, by rfl, by rfl⟩

lemma getMemberUrn_refined (ienv : IdEnv) (K : Nat) (hK : K < 3)
    (hif : ∀ i, i < K → idCandFails (idOutcomeN ienv i) (idFieldN i) = true)
    (his : idCandFails (idOutcomeN ienv K) (idFieldN K) = false) :
    getMemberUrn none ienv =
      (Except.ok (idMap (idOutcomeN ienv K) (idFieldN K)), idEndpoints.take (K + 1)) := by
  unfold getMemberUrn
  interval_cases K
  · simp only [idOutcomeN, idFieldN] at his ⊢
    rw [idCandidateHit_of_succ his]
    rfl
  · have h0 := hif 0 (by omega)
    simp only [idOutcomeN, idFieldN] at his h0 ⊢
    rw [idCandidateHit_of_fails h0, idCandidateHit_of_succ his]
    rfl
  · have h0 := hif 0 (by omega)
    have h1 := hif 1 (by omega)
    simp only [idOutcomeN, idFieldN] at his h0 h1 ⊢
    rw [idCandidateHit_of_fails h0, idCandidateHit_of_fails h1,
      idCandidateHit_of_succ his]
    rfl

lemma createPost_refined (text : String) (v : Visibility) (urn : String)
    (penv : PostEnv) (J : Nat) (hJ : J < 2)
    (hpf : ∀ j, j < J → postCandFallsThrough (postOutcomeN penv j) = true)
    (hps : postCandSucceeds (postOutcomeN penv J) = true) :
    createPost text v (some urn) penv =
      (Except.ok (postMapN J (responseOf (postOutcomeN penv J))),
       postEndpoints.take (J + 1)) := by
  interval_cases J
  · simp only [postOutcomeN] at hps ⊢
    cases hre : penv.restPosts with
    | exn e => rw [hre] at hps; simp [postCandSucceeds] at hps
    | ok r =>
      rw [hre] at hps
      have hok : postOkStatus r = true := by simpa [postCandSucceeds] using hps
      simp [createPost, getMemberUrn, hre, hok, postMapN, responseOf, postEndpoints]
  · have h0 := hpf 0 (by omega)
    simp only [postOutcomeN] at hps h0 ⊢
    cases hre : penv.restPosts with
    | exn e => rw [hre] at h0; simp [postCandFallsThrough] at h0
    | ok r =>
      rw [hre] at h0
      have hnok : postOkStatus r = false := by
        simpa [postCandFallsThrough] using h0
      cases hug : penv.ugcPosts with
      | exn e => rw [hug] at hps; simp [postCandSucceeds] at hps
      | ok r2 =>
        rw [hug] at hps
        have hok : postOkStatus r2 = true := by simpa [postCandSucceeds] using hps
        simp [createPost, getMemberUrn, hre, hug, hnok, hok, postMapN,
          responseOf, postEndpoints]

/-- C4 (amended): the short-circuit fallback property holds under the
code's actual per-candidate success criteria. For the identity chain (every
candidate wrapped in try/catch) a candidate fails — falling through to the
next — on a caught transport error, a non-2xx status, or a 2xx response
whose identifier field is absent or empty, and succeeds otherwise; for the
create-post chain (unwrapped fetches) a candidate falls through only on a
completed non-success response, and succeeds on a completed success
response. Whenever candidates 1..K fall through and candidate K+1 succeeds,
the result is candidate K+1's canonical mapping of its response and the
requests issued are exactly candidates 1..K+1, so no request reaches any
later candidate. -/
theorem c4_fallback_chain_refined (ienv : IdEnv) (K : Nat) (hK : K < 3)
    (hif : ∀ i, i < K → idCandFails (idOutcomeN ienv i) (idFieldN i) = true)
    (his : idCandFails (idOutcomeN ienv K) (idFieldN K) = false)
    (text : String) (v : Visibility) (urn : String) (penv : PostEnv)
    (J : Nat) (hJ : J < 2)
    (hpf : ∀ j, j < J → postCandFallsThrough (postOutcomeN penv j) = true)
    (hps : postCandSucceeds (postOutcomeN penv J) = true) :
    getMemberUrn none ienv =
      (Except.ok (idMap (idOutcomeN ienv K) (idFieldN K)), idEndpoints.take (K + 1)) ∧
    createPost text v (some urn) penv =
      (Except.ok (postMapN J (responseOf (postOutcomeN penv J))),
       postEndpoints.take (J + 1)) :=
  ⟨getMemberUrn_refined ienv K hK hif his,
   createPost_refined text v urn penv J hJ hpf hps⟩

def c4wIdEnv : IdEnv :=
  { restMe := .ok { status := 500 },
    userinfo := .ok { status := 200, body := { sub := some "x" } },
    v2Me := .exn "unreachable" }

def c4wPostEnv : PostEnv :=
  { idEnv := c4wIdEnv,
    restPosts := .ok { status := 404 },
    ugcPosts := .ok { status := 201, body := { id := some "ugc1" } } }

/-- C4 witness: candidate 1 fails and candidate 2 succeeds in both chains. -/
theorem c4_witness :
    idCandFails (idOutcomeN c4wIdEnv 0) (idFieldN 0) = true ∧
    (getMemberUrn none c4wIdEnv =
      (Except.ok (idMap (idOutcomeN c4wIdEnv 1) (idFieldN 1)), idEndpoints.take (1 + 1)) ∧
     createPost "hi" .PUBLIC (some "urn:li:person:u") c4wPostEnv =
      (Except.ok (postMapN 1 (responseOf (postOutcomeN c4wPostEnv 1))),
       postEndpoints.take (1 + 1))) :=
  ⟨by decide,
   c4_fallback_chain_refined c4wIdEnv 1 (by omega)
     (by intro i hi; interval_cases i; decide) (by decide)
     "hi" .PUBLIC "urn:li:person:u" c4wPostEnv 1 (by omega)
     (by intro j hj; interval_cases j; decide) (by decide)⟩

/-! ## Claims C8, C9 -/

/-- C8: createArticlePost("hi", "https://a.com", "T", "D", "PUBLIC"), with the
member URN resolved and the current-generation posts endpoint answering HTTP
201 with header x-restli-id: post123, returns success:true with id "post123",
and the only request issued is to the current-generation endpoint — none
reaches the legacy ugcPosts endpoint. -/
theorem c8_article_current_generation (urn : String) (ienv : IdEnv) (b : Body)
    (ugc : FetchOutcome) :
    createArticlePost "hi" "https://a.com" (some "T") (some "D") .PUBLIC (some urn)
        { idEnv := ienv,
          restPosts := .ok { status := 201, headers := [("x-restli-id", "post123")], body := b },
          ugcPosts := ugc } =
      (Except.ok { success := true, id := some "post123" }, [Endpoint.restPosts]) := by
  rfl

/-- C9: when the current-generation endpoint answers any 2xx without an
x-restli-id header, both createPost and createArticlePost still return
success with the literal id "created". -/
theorem c9_missing_restli_id_header (text articleUrl : String)
    (title description : Option String) (v : Visibility) (urn : String)
    (ienv : IdEnv) (r : HttpResponse) (ugc : FetchOutcome)
    (h1 : r.ok = true) (h2 : getHeader r "x-restli-id" = none) :
    (createPost text v (some urn)
        { idEnv := ienv, restPosts := .ok r, ugcPosts := ugc }).1 =
      Except.ok { success := true, id := some "created" } ∧
    (createArticlePost text articleUrl title description v (some urn)
        { idEnv := ienv, restPosts := .ok r, ugcPosts := ugc }).1 =
      Except.ok { success := true, id := some "created" } := by
  have hok : postOkStatus r = true := by simp [postOkStatus, h1]
  have hid : restliIdOr r = "created" := by simp [restliIdOr, h2]
  constructor
  · simp [createPost, getMemberUrn, hok, hid]
  · simp [createArticlePost, getMemberUrn, hok, hid]

/-- C9 witness: a bare 200 response with no headers. -/
theorem c9_witness :
    ({ status := 200 } : HttpResponse).ok = true ∧
    getHeader { status := 200 } "x-restli-id" = none ∧
    ((createPost "hi" .PUBLIC (some "urn:li:person:u")
        { idEnv := ienvFail, restPosts := .ok { status := 200 }, ugcPosts := .exn "t" }).1 =
      Except.ok { success := true, id := some "created" } ∧
     (createArticlePost "hi" "https://a.com" none none .PUBLIC (some "urn:li:person:u")
        { idEnv := ienvFail, restPosts := .ok { status := 200 }, ugcPosts := .exn "t" }).1 =
      Except.ok { success := true, id := some "created" }) :=
  ⟨by decide, by decide,
   c9_missing_restli_id_header "hi" "https://a.com" none none .PUBLIC "urn:li:person:u"
     ienvFail { status := 200 } (.exn "t") (by decide) (by decide)⟩

end LinkedinMcp
